import Mathlib

/-!
Verification of the social/dating backend (graph-database services).

This file gives a shallow embedding of the parts of the code base that the
claims C1-C10 are about:

* the graph state (users, FOLLOWS / BLOCKS / REQUESTED_TO_FOLLOW / LIKED /
  DATING_ACTION / DATING_MATCH / DATING_PROFILE_VIEW edges, denormalized
  counters) as a `Graph` structure of Boolean edge relations and
  `Option Int` counters (a missing node property is `none`, mirroring a
  NULL property in the store);
* the service-layer operations of `app/services/block.py`,
  `app/services/follow.py`, `app/services/like.py` and
  `app/services/dating.py` as functions `Graph -> Except E (Graph x R)`.
  An `Except.error` result models a raised exception: the managed write
  transaction is rolled back, so no new graph escapes;
* the pydantic models of `app/models/dating.py` as a validated smart
  constructor.

Cypher queries are translated clause by clause with Neo4j semantics:
`MERGE` creates an edge only when absent, an `OPTIONAL MATCH` never drops
a row (a failed match binds NULL, and a `WHERE` attached to an
`OPTIONAL MATCH` is part of pattern matching, not a row filter), and a
`WHERE` following a `WITH` may only reference variables the `WITH`
projects.  Engine-computed quantities (point distances, embedding and
node-similarity scores) are carried as data: the geographic distance is a
field of the graph and the per-candidate scores are fields of the rows the
match query returns.  Timestamps are omitted throughout: no claim depends
on them.
-/

/-! ## Basic identifiers and enumerations -/

abbrev UserId := Nat

abbrev PostId := Nat

/-- `InteractionType` from `app/models/interaction.py`. -/
inductive InteractionType where
  | LIKE
  | COMMENT
  | SHARE
  | FOLLOW
  | BLOCK
  | REPORT
  | SWIPE_LEFT
  | SWIPE_RIGHT
  | SUPER_LIKE
  | MATCH
  | MESSAGE
deriving DecidableEq, Repr

/-- `Gender` from `app/models/dating.py`. -/
inductive Gender where
  | male
  | female
  | non_binary
  | other
deriving DecidableEq, Repr

/-- `Sexuality` from `app/models/dating.py`. -/
inductive Sexuality where
  | straight
  | gay
  | lesbian
  | bisexual
  | pansexual
  | asexual
  | other
deriving DecidableEq, Repr

/-! ## The graph-database state -/

/-- The slice of the Neo4j graph the verified services read and write.
Edge relations hold at most one edge per (source, type, target), which is
the invariant `MERGE`-based creation maintains.  `DATING_MATCH` edges are
stored directed but always queried in both directions (the Cypher patterns
for them are undirected).  `point_distance_meters` is the value the engine
function `point.distance` returns for the two users' stored points; it is
consulted only when both users have location data. -/
structure Graph where
  userExists : UserId → Bool
  postExists : PostId → Bool
  is_private : UserId → Option Bool
  follows : UserId → UserId → Bool
  requested_to_follow : UserId → UserId → Bool
  blocks : UserId → UserId → Bool
  likes : UserId → PostId → Bool
  datingAction : UserId → UserId → InteractionType → Bool
  datingMatch : UserId → UserId → Bool
  datingProfileView : UserId → UserId → Bool
  datingProfileViewCount : UserId → UserId → Int
  follower_count : UserId → Option Int
  following_count : UserId → Option Int
  like_count : PostId → Option Int
  hasLocation : UserId → Bool
  point_distance_meters : UserId → UserId → ℚ

/-- Meters-to-miles factor `0.000621371` used by the dating queries. -/
def metersToMiles : ℚ := 621371 / 1000000000

/-- `point.distance(...) * 0.000621371` as computed by
`_record_dating_action`: NULL (here `none`) when either user lacks
location data, since `point` of NULL coordinates is NULL. -/
def matchDistanceMiles (g : Graph) (a b : UserId) : Option ℚ :=
  if g.hasLocation a && g.hasLocation b then
    some (g.point_distance_meters a b * metersToMiles)
  else none

/-! ## Error taxonomies (`app/services/...`) -/

/-- Exception taxonomy of `app/services/block.py`: the base class
`BlockError` and its subclass `BlockNotFoundError` (`BlockUpdateError` is
never raised by the verified paths). -/
inductive BlockErr where
  | blockError (msg : String)
  | blockNotFoundError (msg : String)
deriving DecidableEq, Repr

/-- Exception taxonomy of `app/services/follow.py`. -/
inductive FollowErr where
  | followError (msg : String)
  | followNotFoundError (msg : String)
  | followRequestNotFoundError (msg : String)
  | followCreationError (msg : String)
  | followRequestError (msg : String)
deriving DecidableEq, Repr

/-- Exception taxonomy of `app/services/dating.py`. -/
inductive DatingErr where
  | matchCreationError (msg : String)
  | actionRecordingError (msg : String)
deriving DecidableEq, Repr

/-! ## Block service (`app/services/block.py`) -/

/-- Result record schema `CreateBlockRecord`
(`app/schemas/database_records.py`): it requires the keys `success`,
`blocked_user_id`, `removed_forward_follow`, `removed_reverse_follow`. -/
def createBlockRecordRequiredKeys : List String :=
  ["success", "blocked_user_id", "removed_forward_follow",
   "removed_reverse_follow"]

/-- Keys of the map returned by the Cypher query of
`_create_block_relationship` (note `blocked_user`, not
`blocked_user_id`). -/
def createBlockResultKeys : List String :=
  ["success", "blocked_user", "removed_forward_follow",
   "removed_reverse_follow"]

/-- Pydantic construction of a record from a result map: every required
field key must be present among the supplied keys (extra keys are
ignored); a missing required field raises a `ValidationError`, which is a
`ValueError`. -/
def pydanticKeysOk (required supplied : List String) : Bool :=
  required.all (fun k => supplied.contains k)

/-- The data of the map `_create_block_relationship` returns. -/
structure CreateBlockResult where
  success : Bool
  blocked_user : UserId
  removed_forward_follow : Bool
  removed_reverse_follow : Bool
deriving DecidableEq, Repr

/-- The write effect of the Cypher query in `_create_block_relationship`
(lines 40-85 of `app/services/block.py`), for `origin ≠ target`: delete
the `FOLLOWS` edges in both directions if present, adjust the four cached
counters for exactly the follow edges that existed (with
`coalesce(count, 1) - 1`), and `MERGE` the `BLOCKS` edge. -/
def blockEffect (g : Graph) (origin target : UserId) : Graph :=
  let f1 := g.follows origin target
  let f2 := g.follows target origin
  { g with
    follows := fun x y =>
      if (x = origin ∧ y = target) ∨ (x = target ∧ y = origin) then false
      else g.follows x y
    following_count := fun x =>
      if x = origin then
        (if f1 then some ((g.following_count origin).getD 1 - 1)
         else g.following_count origin)
      else if x = target then
        (if f2 then some ((g.following_count target).getD 1 - 1)
         else g.following_count target)
      else g.following_count x
    follower_count := fun x =>
      if x = origin then
        (if f2 then some ((g.follower_count origin).getD 1 - 1)
         else g.follower_count origin)
      else if x = target then
        (if f1 then some ((g.follower_count target).getD 1 - 1)
         else g.follower_count target)
      else g.follower_count x
    blocks := fun x y =>
      if x = origin ∧ y = target then true else g.blocks x y }

/-- `BlockService._create_block_relationship`: run the write query (one
row is produced exactly when both users exist and differ), then build a
`CreateBlockRecord` from the returned map.  The map key `blocked_user`
does not match the schema field `blocked_user_id`, so the record
construction raises inside the managed transaction whenever the query
succeeds, rolling the write back. -/
def create_block_relationship (g : Graph) (origin target : UserId) :
    Except String (Graph × CreateBlockResult) :=
  if g.userExists origin && g.userExists target && decide (origin ≠ target)
  then
    if pydanticKeysOk createBlockRecordRequiredKeys createBlockResultKeys
    then
      .ok (blockEffect g origin target,
        { success := true
          blocked_user := target
          removed_forward_follow := g.follows origin target
          removed_reverse_follow := g.follows target origin })
    else .error "validation error for CreateBlockRecord: blocked_user_id field required"
  else .error "Something went wrong when trying to block user"

/-- `BlockService.block`: reject self-blocks before touching the session,
otherwise run the transaction and wrap any failure in `BlockError`. -/
def block (g : Graph) (origin target : UserId) :
    Except BlockErr (Graph × CreateBlockResult) :=
  if origin = target then
    .error (.blockError "Users cannot block themselves")
  else
    match create_block_relationship g origin target with
    | .ok r => .ok r
    | .error e => .error (.blockError ("Failed to block user: " ++ e))

/-! ## Follow service (`app/services/follow.py`) -/

/-- Variables projected by the `WITH` clause of the follow-creation query
(`WITH follower, following, b1, b2`, line 114 of
`app/services/follow.py`). -/
def createFollowWithProjection : List String :=
  ["follower", "following", "b1", "b2"]

/-- Variables referenced by the `WHERE` clause that immediately follows
that `WITH` (line 115). -/
def createFollowWhereRefs : List String :=
  ["b1", "b2", "existing_req", "existing_follow"]

/-- Cypher scoping rule: a `WHERE` that follows a `WITH` may only
reference variables the `WITH` projects; an unprojected variable is a
compile-time error (`Variable not defined`) and the whole query fails. -/
def cypherWithWhereScopeOk (projected refs : List String) : Bool :=
  refs.all (fun v => projected.contains v)

/-- The write effect of the public-account branch of the follow query:
`CREATE` the `FOLLOWS` edge and increment the two cached counters with
`coalesce(count, 0) + 1`. -/
def followDirectEffect (g : Graph) (origin target : UserId) : Graph :=
  { g with
    follows := fun x y =>
      if x = origin ∧ y = target then true else g.follows x y
    following_count := fun x =>
      if x = origin then some ((g.following_count origin).getD 0 + 1)
      else g.following_count x
    follower_count := fun x =>
      if x = target then some ((g.follower_count target).getD 0 + 1)
      else g.follower_count x }

/-- The write effect of the private-account branch of the follow query:
`CREATE` a `REQUESTED_TO_FOLLOW` edge with status `PENDING`; no counter
changes. -/
def followRequestEffect (g : Graph) (origin target : UserId) : Graph :=
  { g with
    requested_to_follow := fun x y =>
      if x = origin ∧ y = target then true else g.requested_to_follow x y }

/-- `FollowService._create_follow_relationship`.  The query would branch
on `following.is_private` (request for private accounts, direct follow
with counter increments otherwise) after filtering out blocked pairs and
already-existing relationships - but its `WITH follower, following, b1,
b2` is followed by a `WHERE` that also references `existing_req` and
`existing_follow`, which that `WITH` does not project, so Neo4j rejects
the query and the transaction function always raises.  The `Bool` in the
result is `is_direct_follow`. -/
def create_follow_relationship (g : Graph) (origin target : UserId) :
    Except String (Graph × Bool) :=
  if !cypherWithWhereScopeOk createFollowWithProjection createFollowWhereRefs
  then .error "Variable existing_req not defined"
  else if !(g.userExists origin && g.userExists target
            && decide (origin ≠ target)) then
    .error "Unknown error when following user"
  else if g.blocks origin target then
    .error "Cannot follow a user you have blocked"
  else if g.blocks target origin then
    .error "Cannot follow a user who has blocked you"
  else if g.requested_to_follow origin target || g.follows origin target
  then .error "Unknown error when following user"
  else
    match g.is_private target with
    | some true => .ok (followRequestEffect g origin target, false)
    | _ => .ok (followDirectEffect g origin target, true)

/-- `FollowService.follow_user`: reject self-follows before opening a
session, otherwise run the transaction and wrap any failure in
`FollowCreationError`. -/
def follow_user (g : Graph) (origin target : UserId) :
    Except FollowErr (Graph × Bool) :=
  if origin = target then
    .error (.followCreationError "Users cannot follow themselves")
  else
    match create_follow_relationship g origin target with
    | .ok r => .ok r
    | .error e =>
        .error (.followCreationError ("Failed to create follow: " ++ e))

/-- The write effect of `_remove_follow`: delete the `FOLLOWS` edge and
decrement the two cached counters (no `coalesce`: a NULL counter stays
NULL, `Option.map` here). -/
def unfollowEffect (g : Graph) (origin target : UserId) : Graph :=
  { g with
    follows := fun x y =>
      if x = origin ∧ y = target then false else g.follows x y
    following_count := fun x =>
      if x = origin then (g.following_count origin).map (fun c => c - 1)
      else g.following_count x
    follower_count := fun x =>
      if x = target then (g.follower_count target).map (fun c => c - 1)
      else g.follower_count x }

/-- `FollowService._remove_follow`: the `MATCH` requires both users and
the `FOLLOWS` edge; with no deleted relationship the function raises
`FollowNotFoundError`. -/
def remove_follow (g : Graph) (origin target : UserId) :
    Except FollowErr Graph :=
  if g.userExists origin && g.userExists target && g.follows origin target
  then .ok (unfollowEffect g origin target)
  else .error (.followNotFoundError "Follow relationship not found")

/-- `FollowService.unfollow_user`: runs `_remove_follow`;
`FollowNotFoundError` is re-raised unchanged. -/
def unfollow_user (g : Graph) (origin target : UserId) :
    Except FollowErr Graph :=
  remove_follow g origin target

/-! ## Like service (`app/services/like.py`) -/

/-- The data of the map `_create_post_like` returns (`Like` model fields
`user_id`, `content_id`, `content_type`; `created_at` omitted). -/
structure LikeResult where
  user_id : UserId
  content_id : PostId
  content_type : String
deriving DecidableEq, Repr

/-- The write effect of the `MERGE (user)-[r:LIKED]->(post)` with
`ON CREATE SET ... post.like_count = coalesce(post.like_count, 0) + 1`:
a new edge increments the counter, an existing edge leaves the graph
untouched. -/
def likePostEffect (g : Graph) (user : UserId) (post : PostId) : Graph :=
  if g.likes user post then g
  else
    { g with
      likes := fun x y =>
        if x = user ∧ y = post then true else g.likes x y
      like_count := fun q =>
        if q = post then some ((g.like_count post).getD 0 + 1)
        else g.like_count q }

/-- `LikeService._create_post_like`: the main query returns a row exactly
when both nodes exist; otherwise the check query picks the error (user
first, then post). -/
def create_post_like (g : Graph) (post : PostId) (user : UserId) :
    Except String (Graph × LikeResult) :=
  if g.userExists user then
    if g.postExists post then
      .ok (likePostEffect g user post,
        { user_id := user, content_id := post, content_type := "post" })
    else .error "Post not found"
  else .error "User not found"

/-- The write effect of the unlike query: delete the `LIKED` edge and
`SET post.like_count = post.like_count - 1` (no `coalesce`: a NULL
counter stays NULL). -/
def unlikePostEffect (g : Graph) (user : UserId) (post : PostId) : Graph :=
  { g with
    likes := fun x y =>
      if x = user ∧ y = post then false else g.likes x y
    like_count := fun q =>
      if q = post then (g.like_count post).map (fun c => c - 1)
      else g.like_count q }

/-- `LikeService._remove_post_like`: the row survives the
`WITH ... WHERE like_exists` filter exactly when the `LIKED` edge exists;
otherwise the check query picks the error (user, then post, then
missing like). -/
def remove_post_like (g : Graph) (post : PostId) (user : UserId) :
    Except String Graph :=
  if g.userExists user && g.postExists post && g.likes user post then
    .ok (unlikePostEffect g user post)
  else if !g.userExists user then .error "User not found"
  else if !g.postExists post then .error "Post not found"
  else .error "No like on this post to remove"

/-! ## Dating service (`app/services/dating.py`) -/

/-- The positive dating actions (`SWIPE_RIGHT`, `SUPER_LIKE`). -/
def positiveAction (a : InteractionType) : Bool :=
  a == .SWIPE_RIGHT || a == .SUPER_LIKE

/-- The actions `record_dating_action` accepts. -/
def validDatingAction (a : InteractionType) : Bool :=
  a == .SWIPE_RIGHT || a == .SWIPE_LEFT || a == .SUPER_LIKE

/-- `MERGE (user)-[action:DATING_ACTION {type: $action}]->(target)`:
edges of distinct action types coexist. -/
def setDatingAction (g : Graph) (u t : UserId) (a : InteractionType) :
    Graph :=
  { g with
    datingAction := fun x y c =>
      if x = u ∧ y = t ∧ c = a then true else g.datingAction x y c }

/-- `DatingService._check_existing_match`: existence of an undirected
`DATING_MATCH` edge between the two users. -/
def check_existing_match (g : Graph) (a b : UserId) : Bool :=
  g.datingMatch a b || g.datingMatch b a

/-- `MERGE (user)-[match:DATING_MATCH]-(target)`: undirected merge,
creates a directed representative only when no edge exists in either
direction. -/
def mergeDatingMatch (g : Graph) (u t : UserId) : Graph :=
  if check_existing_match g u t then g
  else
    { g with
      datingMatch := fun x y =>
        if x = u ∧ y = t then true else g.datingMatch x y }

/-- The `DatingMatch` data `_record_dating_action` returns on a mutual
match (`app/models/dating.py`; timestamps and the placeholder
`compatibility_score = 0.0` omitted).  `distance_miles` is a required
float of the pydantic model: a NULL engine distance fails validation. -/
structure DatingMatchResult where
  user_id_a : UserId
  user_id_b : UserId
  user_a_action : InteractionType
  user_b_action : InteractionType
  distance_miles : ℚ
  is_mutual : Bool
deriving DecidableEq, Repr

/-- `DatingService._record_dating_action`: verify both users exist and
neither blocks the other; `MERGE` the action edge; then the match part of
the query runs only when the recorded action is positive and the target
already has a positive action edge toward the actor - in that case the
`DATING_MATCH` edge is merged and a row is returned, else `single()` is
`None` and the function returns `None`.  Building the returned
`DatingMatch` fails (a `ValidationError`, message mentioning the model
name `DatingMatch`) when the engine distance is NULL, which the wrapper
turns into `MatchCreationError`; the transaction is then rolled back. -/
def record_dating_action_tx (g : Graph) (u t : UserId)
    (a : InteractionType) :
    Except DatingErr (Graph × Option DatingMatchResult) :=
  if !g.userExists u then .error (.actionRecordingError "User not found")
  else if !g.userExists t then
    .error (.actionRecordingError "Target user not found")
  else if g.blocks u t || g.blocks t u then
    .error (.actionRecordingError "Cannot interact with blocked user")
  else if positiveAction a
      && ((setDatingAction g u t a).datingAction t u .SWIPE_RIGHT
          || (setDatingAction g u t a).datingAction t u .SUPER_LIKE) then
    match matchDistanceMiles g u t with
    | some d =>
        .ok (mergeDatingMatch (setDatingAction g u t a) u t,
          some { user_id_a := u
                 user_id_b := t
                 user_a_action := a
                 user_b_action :=
                   if (setDatingAction g u t a).datingAction t u .SUPER_LIKE
                   then .SUPER_LIKE else .SWIPE_RIGHT
                 distance_miles := d
                 is_mutual := true })
    | none =>
        .error (.matchCreationError
          "Failed to create match: validation error for DatingMatch: distance_miles")
  else .ok (setDatingAction g u t a, none)

/-- `DatingService.record_dating_action`: reject self-actions and invalid
action types before opening a session, then run the transaction. -/
def record_dating_action (g : Graph) (u t : UserId)
    (a : InteractionType) :
    Except DatingErr (Graph × Option DatingMatchResult) :=
  if u = t then
    .error (.actionRecordingError "Cannot perform dating action on yourself")
  else if !validDatingAction a then
    .error (.actionRecordingError "Invalid dating action type")
  else record_dating_action_tx g u t a

/-- The write effect of `_record_profile_view`:
`MERGE (viewer)-[view:DATING_PROFILE_VIEW]->(creator)` with
`ON CREATE view_count = 1` and `ON MATCH view_count + 1`. -/
def profileViewEffect (g : Graph) (viewer creator : UserId) : Graph :=
  { g with
    datingProfileView := fun x y =>
      if x = viewer ∧ y = creator then true else g.datingProfileView x y
    datingProfileViewCount := fun x y =>
      if x = viewer ∧ y = creator then
        (if g.datingProfileView viewer creator then
          g.datingProfileViewCount viewer creator + 1
         else 1)
      else g.datingProfileViewCount x y }

/-- `DatingService._record_profile_view`: the `MATCH ... WHERE viewer <>
creator` yields a row exactly when both users exist and differ; with no
row nothing is written and the function raises. -/
def record_profile_view (g : Graph) (viewer creator : UserId) :
    Except String Graph :=
  if g.userExists viewer && g.userExists creator
      && decide (viewer ≠ creator) then
    .ok (profileViewEffect g viewer creator)
  else .error "Failed to record profile view"

/-- `DatingFilter` from `app/models/dating.py` (validated fields:
`max_distance_miles` in [1,100], ages in [18,100], `min_compatibility` in
[0,1], `limit` in [1,100], `offset ≥ 0`). -/
structure DatingFilter where
  max_distance_miles : ℚ := 50
  min_age : Int := 18
  max_age : Int := 100
  gender_preference : Option (List Gender) := none
  exclude_seen : Bool := true
  exclude_matched : Bool := true
  min_compatibility : ℚ := 0
  limit : Nat := 50
  offset : Nat := 0
deriving Repr

/-- One row of the result set of the match-finding query of
`_get_potential_matches`, ordered by the server with
`ORDER BY compatibility_score DESC`: the candidate profile together with
its engine-computed compatibility score. -/
structure CandidateRow where
  user_id : UserId
  compatibility_score : ℚ
deriving DecidableEq, Repr

/-- `seen_ids` of `_get_potential_matches` (line 361 of
`app/services/dating.py`): initialized to the empty set and never added
to anywhere in the loop. -/
def seen_ids : List UserId := []

/-- The `for record in result` loop of `_get_potential_matches`: skip a
row if (`exclude_seen` and its id is in `seen_ids`), skip it if
(`exclude_matched` and `_check_existing_match`), skip it if its score is
below `min_compatibility`, else append it; stop as soon as `limit` rows
are collected. -/
def collectMatches (g : Graph) (uid : UserId) (fl : DatingFilter) :
    List CandidateRow → List CandidateRow → List CandidateRow
  | [], out => out
  | r :: rest, out =>
    if fl.exclude_seen && seen_ids.contains r.user_id then
      collectMatches g uid fl rest out
    else if fl.exclude_matched && check_existing_match g uid r.user_id
    then collectMatches g uid fl rest out
    else if r.compatibility_score < fl.min_compatibility then
      collectMatches g uid fl rest out
    else
      let out2 := out ++ [r]
      if fl.limit ≤ out2.length then out2
      else collectMatches g uid fl rest out2

/-- The three `continue` conditions of the loop, combined: a row is kept
exactly when none of them fires. -/
def qualifies (g : Graph) (uid : UserId) (fl : DatingFilter)
    (r : CandidateRow) : Bool :=
  !(fl.exclude_seen && seen_ids.contains r.user_id)
  && !(fl.exclude_matched && check_existing_match g uid r.user_id)
  && !(decide (r.compatibility_score < fl.min_compatibility))

/-- `DatingService._get_potential_matches`, given the server-sorted rows:
run the collection loop starting from the empty list, then return
`matches[filters.offset:]` (the query itself is issued with `offset=0`,
`limit=1000`; pagination is applied in memory). -/
def get_potential_matches (g : Graph) (uid : UserId) (fl : DatingFilter)
    (rows : List CandidateRow) : List CandidateRow :=
  (collectMatches g uid fl rows []).drop fl.offset

/-- The `compatibility_score` expression of the match-finding query
(lines 323-334 of `app/services/dating.py`):
`COALESCE(embedding_sim, 0.0) * 0.3 + COALESCE(node_sim, 0.0) * 0.2 +
interaction_score * 0.2` plus the distance term, which is
`(1 - distance_miles / max_distance_miles) * 0.3` when `distance_miles`
is non-NULL and the constant `0.15` otherwise. -/
def compatibility_score (embedding_sim node_sim : Option ℚ)
    (interaction_score : ℚ) (distance_miles : Option ℚ)
    (max_distance_miles : ℚ) : ℚ :=
  embedding_sim.getD 0 * (3/10) + node_sim.getD 0 * (2/10)
    + interaction_score * (2/10)
    + match distance_miles with
      | some d => (1 - d / max_distance_miles) * (3/10)
      | none => 15/100

/-! ## The `DatingProfile` pydantic model (`app/models/dating.py`) -/

/-- The age measure of `DatingProfile.validate_age`:
`(date.today() - birth_date).days / 365.25`, as an exact rational
(`365.25 = 1461/4`), applied to the day count of the birth date in the
past. -/
def ageYears (days : Int) : ℚ :=
  (days : ℚ) * 4 / 1461

/-- The field data of a `DatingProfile` (`app/models/dating.py`, lines
61-101).  The birth date is carried as its distance in days from today;
photos as their URL strings; timestamps omitted. -/
structure DatingProfileData where
  user_id : UserId
  bio : String
  birth_days_ago : Int
  gender : Gender
  sexuality : Sexuality
  photos : List String
  max_distance_miles : ℚ
  min_age_preference : Int
  max_age_preference : Int
  gender_preference : List Gender
  is_visible : Bool
deriving DecidableEq, Repr

/-- Pydantic construction of a `DatingProfile`: the per-field constraints
(`bio` at most 500 characters, at most 5 `photos`,
`max_distance_miles` in [1,100], both age preferences in [18,100]) and
the three field validators (`validate_age` on the birth date,
`validate_age_range` comparing `max_age_preference` against
`min_age_preference`, `validate_gender_preference` rejecting an empty
list), checked in field-declaration order.  Pydantic collects all field
errors before failing; this embedding reports the first, which rejects
exactly the same inputs.  Every code path that produces a
`DatingProfile` (creation, reads, updates) goes through this validation,
since the model is frozen and always rebuilt via `DatingProfile(**...)`. -/
def mk_dating_profile (d : DatingProfileData) :
    Except String DatingProfileData :=
  if 500 < d.bio.length then
    .error "bio: value too long"
  else if ageYears d.birth_days_ago < 18 then
    .error "Must be at least 18 years old"
  else if 100 < ageYears d.birth_days_ago then
    .error "Invalid birth date"
  else if 5 < d.photos.length then
    .error "photos: too many items"
  else if d.max_distance_miles < 1 ∨ 100 < d.max_distance_miles then
    .error "max_distance_miles: out of range"
  else if d.min_age_preference < 18 ∨ 100 < d.min_age_preference then
    .error "min_age_preference: out of range"
  else if d.max_age_preference < 18 ∨ 100 < d.max_age_preference then
    .error "max_age_preference: out of range"
  else if d.max_age_preference < d.min_age_preference then
    .error "Maximum age must be greater than minimum age"
  else if d.gender_preference = [] then
    .error "Must specify at least one gender preference"
  else .ok d

/-! ## Concrete states used to evaluate the operations -/

/-- The empty graph: no users, no edges, no cached counters. -/
def Graph.empty : Graph where
  userExists := fun _ => false
  postExists := fun _ => false
  is_private := fun _ => none
  follows := fun _ _ => false
  requested_to_follow := fun _ _ => false
  blocks := fun _ _ => false
  likes := fun _ _ => false
  datingAction := fun _ _ _ => false
  datingMatch := fun _ _ => false
  datingProfileView := fun _ _ => false
  datingProfileViewCount := fun _ _ => 0
  follower_count := fun _ => none
  following_count := fun _ => none
  like_count := fun _ => none
  hasLocation := fun _ => false
  point_distance_meters := fun _ _ => 0

/-- Users 1 and 2, where 1 follows 2, with all four cached counters
populated.  A fully ordinary input for `block`. -/
def gBlockInput : Graph :=
  { Graph.empty with
    userExists := fun u => u == 1 || u == 2
    follows := fun x y => x == 1 && y == 2
    following_count := fun u =>
      if u == 1 then some 5 else if u == 2 then some 4 else none
    follower_count := fun u =>
      if u == 1 then some 3 else if u == 2 then some 7 else none }

/-- Users 1 and 2, mutually unblocked, user 2 public
(`is_private = false`), no existing follow or request, counters
populated.  A fully ordinary input for `follow_user`. -/
def gFollowInput : Graph :=
  { Graph.empty with
    userExists := fun u => u == 1 || u == 2
    is_private := fun u => if u == 2 then some false else none
    following_count := fun _ => some 0
    follower_count := fun _ => some 0 }

/-- Users 1 and 2, both with location data, where 2 already has a
`SWIPE_RIGHT` action edge toward 1. -/
def gDatingInput : Graph :=
  { Graph.empty with
    userExists := fun u => u == 1 || u == 2
    datingAction := fun x y c =>
      x == 2 && y == 1 && (c == InteractionType.SWIPE_RIGHT)
    hasLocation := fun u => u == 1 || u == 2
    point_distance_meters := fun _ _ => 16093 }

/-- Users 1 and 2, post 7 liked by user 2 only, counters populated, and
1 follows 2. -/
def gLikeInput : Graph :=
  { Graph.empty with
    userExists := fun u => u == 1 || u == 2
    postExists := fun p => p == 7
    likes := fun u p => u == 2 && p == 7
    like_count := fun p => if p == 7 then some 1 else none
    follows := fun x y => x == 1 && y == 2
    following_count := fun u => if u == 1 then some 5 else some 0
    follower_count := fun u => if u == 2 then some 7 else some 0 }

/-- Users 1 to 5, where user 1 already has a `DATING_MATCH` edge with
user 3. -/
def gMatchesInput : Graph :=
  { Graph.empty with
    userExists := fun u => decide (1 ≤ u) && decide (u ≤ 5)
    datingMatch := fun x y => x == 1 && y == 3 }

/-- Server-sorted candidate rows for user 1 over `gMatchesInput`. -/
def rowsMatches : List CandidateRow :=
  [{ user_id := 2, compatibility_score := 9 },
   { user_id := 3, compatibility_score := 8 },
   { user_id := 4, compatibility_score := 7 },
   { user_id := 5, compatibility_score := 1 }]

/-- A filter asking for the second page of two-per-page results with a
minimum compatibility score of 2. -/
def flMatches : DatingFilter :=
  { min_compatibility := 2, limit := 2, offset := 1 }

/-- Users 1 and 2, after user 1 views the dating profile of user 2
(`record_profile_view`): user 2 is a previously seen profile for
user 1. -/
def gSeenInput : Graph :=
  profileViewEffect
    { Graph.empty with userExists := fun u => u == 1 || u == 2 } 1 2

/-- A single qualifying candidate row for the previously seen user 2. -/
def rowsSeen : List CandidateRow :=
  [{ user_id := 2, compatibility_score := 9 }]

/-- The default filter: `exclude_seen` and `exclude_matched` are on. -/
def flSeen : DatingFilter := {}

/-- An ordinary valid dating profile input: about 27.4 years old, two
photos, coherent age preferences. -/
def dProfileInput : DatingProfileData where
  user_id := 1
  bio := "hello"
  birth_days_ago := 10000
  gender := .male
  sexuality := .straight
  photos := ["urlA", "urlB"]
  max_distance_miles := 50
  min_age_preference := 20
  max_age_preference := 30
  gender_preference := [.female]
  is_visible := true

/-- The mutual-match condition read by the match part of the action
query: the target already has a positive (`SWIPE_RIGHT` or `SUPER_LIKE`)
`DATING_ACTION` edge toward the actor. -/
def theyPositive (g : Graph) (u t : UserId) : Bool :=
  g.datingAction t u .SWIPE_RIGHT || g.datingAction t u .SUPER_LIKE

/-- The graph `record_dating_action gDatingInput 1 2 SWIPE_RIGHT`
commits: the action edge merged, then the mutual `DATING_MATCH`
merged. -/
def gDatingResult : Graph :=
  mergeDatingMatch (setDatingAction gDatingInput 1 2 .SWIPE_RIGHT) 1 2

/-- The `DatingMatch` record that call returns. -/
def mDatingResult : Option DatingMatchResult :=
  some { user_id_a := 1
         user_id_b := 2
         user_a_action := .SWIPE_RIGHT
         user_b_action := .SWIPE_RIGHT
         distance_miles := 16093 * metersToMiles
         is_mutual := true }

/-! ## Theorems -/

/-- C4: for every graph state, user id `u` and action, `block(u, u)`
raises `BlockError`, `follow_user(u, u)` raises `FollowCreationError`,
and `record_dating_action(u, u, action)` raises `ActionRecordingError`.
Each guard runs before the database session is opened, so nothing is
written: an `Except.error` result carries no graph, and the input graph
is untouched. -/
theorem self_action_rejected_before_write (g : Graph) (u : UserId)
    (a : InteractionType) :
    block g u u = .error (.blockError "Users cannot block themselves")
    ∧ follow_user g u u =
        .error (.followCreationError "Users cannot follow themselves")
    ∧ record_dating_action g u u a =
        .error (.actionRecordingError
          "Cannot perform dating action on yourself") :=
  ⟨by simp [block], by simp [follow_user], by simp [record_dating_action]⟩

/-- C2 (failing input): on the ordinary graph `gBlockInput` (users 1 and
2 exist, 1 follows 2, all counters cached) the write effect of the
block transaction is exactly what the claim describes - `BLOCKS` edge
present, both follow directions gone, `following_count` of the blocker
and `follower_count` of the blockee decremented by one, the two counters
of the non-existent reverse follow untouched - but the key
`blocked_user_id` that the `CreateBlockRecord` schema requires is not
among the keys the query returns, so the record construction raises
inside the managed transaction, the write is rolled back, and `block`
raises `BlockError` instead of succeeding. -/
theorem block_rollback_on_schema_mismatch :
    (blockEffect gBlockInput 1 2).blocks 1 2 = true
    ∧ (blockEffect gBlockInput 1 2).follows 1 2 = false
    ∧ (blockEffect gBlockInput 1 2).follows 2 1 = false
    ∧ (blockEffect gBlockInput 1 2).following_count 1 = some 4
    ∧ (blockEffect gBlockInput 1 2).follower_count 2 = some 6
    ∧ (blockEffect gBlockInput 1 2).following_count 2 = some 4
    ∧ (blockEffect gBlockInput 1 2).follower_count 1 = some 3
    ∧ createBlockResultKeys.contains "blocked_user_id" = false
    ∧ block gBlockInput 1 2 = .error (.blockError
        "Failed to block user: validation error for CreateBlockRecord: blocked_user_id field required") :=
  ⟨by decide, by decide, by decide, by decide, by decide, by decide,
   by decide, by decide, rfl⟩

/-- C8 (failing input): the `WITH follower, following, b1, b2` of the
follow-creation query is followed by a `WHERE` referencing
`existing_req` and `existing_follow`, which are not projected, so the
query is rejected by the engine; on the fully ordinary input
`gFollowInput` (distinct, mutually unblocked users, target public, no
prior relationship) `follow_user` therefore raises
`FollowCreationError` instead of creating the `FOLLOWS` edge its
docstring and the claim describe. -/
theorem follow_where_scope_violation :
    cypherWithWhereScopeOk createFollowWithProjection createFollowWhereRefs
      = false
    ∧ follow_user gFollowInput 1 2 = .error (.followCreationError
        "Failed to create follow: Variable existing_req not defined") :=
  ⟨by decide, rfl⟩

/-- C6 (failing input): `gSeenInput` records that user 1 has previously
viewed the dating profile of user 2 (`DATING_PROFILE_VIEW` edge written
by `record_profile_view`), the default filter has `exclude_seen = true`,
yet the candidate row for user 2 is returned: the loop checks membership
in `seen_ids`, which is initialized empty and never populated, so the
seen-profile post-filter excludes nothing. -/
theorem exclude_seen_never_filters :
    gSeenInput.datingProfileView 1 2 = true
    ∧ flSeen.exclude_seen = true
    ∧ seen_ids = []
    ∧ get_potential_matches gSeenInput 1 flSeen rowsSeen = rowsSeen :=
  ⟨by decide, rfl, rfl, by decide⟩

/-- C7 (counterexample, as the negation of the claim): the compatibility
score computed by the match query is not a fixed-weight linear
combination with a (non-trivial) term for a recency-decay signal: no
choice of five weights and a constant represents it with a nonzero
recency weight, because the score does not depend on any recency input
at all. -/
theorem compatibility_score_not_five_signal :
    ¬ ∃ w1 w2 w3 w4 w5 c : ℚ, w4 ≠ 0 ∧
      ∀ e n i r d : ℚ,
        compatibility_score (some e) (some n) i (some d) 50
          = w1 * e + w2 * n + w3 * i + w4 * r + w5 * d + c := by
  rintro ⟨w1, w2, w3, w4, w5, c, hw4, h⟩
  have h0 := h 0 0 0 0 0
  have h1 := h 0 0 0 1 0
  simp only [mul_zero, mul_one, zero_add, add_zero] at h0 h1
  exact hw4 (by linarith)

/-- C7 (amended): the compatibility score is a fixed-weight sum of the
four signals the query actually combines - embedding cosine similarity
(weight 0.3), precomputed node similarity (0.2), interaction score
(0.2) and the normalized geographic-distance term (0.3), the latter
replaced by the constant 0.15 when the distance is NULL; there is no
recency-decay term. -/
theorem compatibility_score_four_signal_sum (e n i d maxd : ℚ) :
    compatibility_score (some e) (some n) i (some d) maxd
      = (3/10) * e + (2/10) * n + (2/10) * i + (3/10) * (1 - d / maxd)
    ∧ compatibility_score none none i none maxd
      = (2/10) * i + 15/100 := by
  constructor <;> simp [compatibility_score] <;> ring

/-- Merging the actor's own `DATING_ACTION` edge does not change any
edge from the target back to the actor (the two endpoints differ). -/
theorem setDatingAction_preserves_reverse (g : Graph) (u t : UserId)
    (a c : InteractionType) (h : u ≠ t) :
    (setDatingAction g u t a).datingAction t u c = g.datingAction t u c := by
  have hcond : ¬(t = u ∧ u = t ∧ c = a) := fun hc => h hc.1.symm
  simp [setDatingAction, hcond]

/-- C1: whenever `record_dating_action` completes without raising, a
`DATING_MATCH` edge can appear only if the recorded action is positive
(`SWIPE_RIGHT` or `SUPER_LIKE`) and the target already had a positive
action edge toward the actor; in every other completed case the call
returns `None` and the set of `DATING_MATCH` edges is unchanged (and a
raised exception rolls the transaction back, so nothing is created
then either). -/
theorem dating_match_requires_mutual_positive (g : Graph) (u t : UserId)
    (a : InteractionType) (g2 : Graph) (r : Option DatingMatchResult)
    (h : record_dating_action g u t a = .ok (g2, r)) :
    ((positiveAction a && theyPositive g u t) = false →
        r = none ∧ ∀ x y, g2.datingMatch x y = g.datingMatch x y)
    ∧ (∀ x y, g2.datingMatch x y = true → g.datingMatch x y = false →
        (positiveAction a && theyPositive g u t) = true) := by
  unfold record_dating_action record_dating_action_tx at h
  by_cases hut : u = t
  · rw [if_pos hut] at h; exact Except.noConfusion h
  rw [if_neg hut] at h
  by_cases hval : (!validDatingAction a) = true
  · rw [if_pos hval] at h; exact Except.noConfusion h
  rw [if_neg hval] at h
  by_cases hu : (!g.userExists u) = true
  · rw [if_pos hu] at h; exact Except.noConfusion h
  rw [if_neg hu] at h
  by_cases ht : (!g.userExists t) = true
  · rw [if_pos ht] at h; exact Except.noConfusion h
  rw [if_neg ht] at h
  by_cases hb : (g.blocks u t || g.blocks t u) = true
  · rw [if_pos hb] at h; exact Except.noConfusion h
  rw [if_neg hb] at h
  have hSR := setDatingAction_preserves_reverse g u t a .SWIPE_RIGHT hut
  have hSL := setDatingAction_preserves_reverse g u t a .SUPER_LIKE hut
  by_cases hpos : (positiveAction a
      && ((setDatingAction g u t a).datingAction t u .SWIPE_RIGHT
          || (setDatingAction g u t a).datingAction t u .SUPER_LIKE)) = true
  · rw [if_pos hpos] at h
    have hpos2 : (positiveAction a && theyPositive g u t) = true := by
      rw [hSR, hSL] at hpos; exact hpos
    cases hdist : matchDistanceMiles g u t with
    | none => rw [hdist] at h; exact Except.noConfusion h
    | some dd =>
        rw [hdist] at h
        injection h with hpair
        injection hpair with hg hr
        constructor
        · intro hneg
          rw [hpos2] at hneg
          exact Bool.noConfusion hneg
        · intro x y _ _
          exact hpos2
  · rw [if_neg hpos] at h
    injection h with hpair
    injection hpair with hg hr
    have hpos2 : (positiveAction a && theyPositive g u t) = false := by
      simp only [Bool.not_eq_true] at hpos
      rw [hSR, hSL] at hpos
      exact hpos
    constructor
    · intro _
      refine ⟨hr.symm, fun x y => ?_⟩
      rw [← hg]
      rfl
    · intro x y hxy1 hxy2
      rw [← hg] at hxy1
      have hxy1b : g.datingMatch x y = true := hxy1
      rw [hxy1b] at hxy2
      exact Bool.noConfusion hxy2

/-- C1 witness: on `gDatingInput` (user 2 already swiped right on
user 1, both located), recording user 1's `SWIPE_RIGHT` commits a new
`DATING_MATCH` edge, and the mutual-positive condition indeed holds. -/
theorem dating_match_requires_mutual_positive_witness :
    (positiveAction .SWIPE_RIGHT && theyPositive gDatingInput 1 2) = true :=
  (dating_match_requires_mutual_positive gDatingInput 1 2 .SWIPE_RIGHT
      gDatingResult mDatingResult rfl).2 1 2 (by decide) (by decide)

/-- C3: denormalized engagement counters change exactly alongside edge
changes, inside the same write transaction (here: the same state-update
function).  `like_post` increments `like_count` by one exactly when a
new `LIKED` edge is created - a repeated like returns the unchanged
graph; `unlike_post` decrements `like_count` by one exactly when the
`LIKED` edge is deleted, and fails (changing nothing) when there is no
edge; `unfollow_user` decrements the cached `following_count` of the
follower and `follower_count` of the followee by one exactly when the
`FOLLOWS` edge is deleted, and fails (changing nothing) when there is
none. -/
theorem engagement_counters_transactional :
    (∀ (g : Graph) (u : UserId) (p : PostId),
      g.userExists u = true → g.postExists p = true → g.likes u p = false →
      create_post_like g p u =
        .ok (likePostEffect g u p,
          { user_id := u, content_id := p, content_type := "post" })
      ∧ (likePostEffect g u p).likes u p = true
      ∧ (likePostEffect g u p).like_count p
          = some ((g.like_count p).getD 0 + 1))
    ∧ (∀ (g : Graph) (u : UserId) (p : PostId),
      g.userExists u = true → g.postExists p = true → g.likes u p = true →
      create_post_like g p u =
        .ok (g, { user_id := u, content_id := p, content_type := "post" }))
    ∧ (∀ (g : Graph) (u : UserId) (p : PostId) (n : Int),
      g.userExists u = true → g.postExists p = true → g.likes u p = true →
      g.like_count p = some n →
      remove_post_like g p u = .ok (unlikePostEffect g u p)
      ∧ (unlikePostEffect g u p).likes u p = false
      ∧ (unlikePostEffect g u p).like_count p = some (n - 1))
    ∧ (∀ (g : Graph) (u : UserId) (p : PostId),
      g.likes u p = false → ∀ g2, remove_post_like g p u ≠ .ok g2)
    ∧ (∀ (g : Graph) (a b : UserId) (fa fb : Int),
      g.userExists a = true → g.userExists b = true → g.follows a b = true →
      g.following_count a = some fa → g.follower_count b = some fb →
      unfollow_user g a b = .ok (unfollowEffect g a b)
      ∧ (unfollowEffect g a b).follows a b = false
      ∧ (unfollowEffect g a b).following_count a = some (fa - 1)
      ∧ (unfollowEffect g a b).follower_count b = some (fb - 1))
    ∧ (∀ (g : Graph) (a b : UserId),
      g.follows a b = false → ∀ g2, unfollow_user g a b ≠ .ok g2) := by
  refine ⟨?_, ?_, ?_, ?_, ?_, ?_⟩
  · intro g u p hu hp hl
    refine ⟨by simp [create_post_like, hu, hp], ?_, ?_⟩
    · simp [likePostEffect, hl]
    · simp [likePostEffect, hl]
  · intro g u p hu hp hl
    simp [create_post_like, hu, hp, likePostEffect, hl]
  · intro g u p n hu hp hl hn
    refine ⟨by simp [remove_post_like, hu, hp, hl], ?_, ?_⟩
    · simp [unlikePostEffect]
    · simp [unlikePostEffect, hn]
  · intro g u p hl g2 hok
    unfold remove_post_like at hok
    rw [hl] at hok
    split_ifs at hok
    simp_all
  · intro g a b fa fb ha hb hf hfa hfb
    refine ⟨by simp [unfollow_user, remove_follow, ha, hb, hf], ?_, ?_, ?_⟩
    · simp [unfollowEffect]
    · simp [unfollowEffect, hfa]
    · simp [unfollowEffect, hfb]
  · intro g a b hf g2 hok
    unfold unfollow_user remove_follow at hok
    rw [hf] at hok
    split_ifs at hok
    simp_all

/-- C3 witness: the three successful operations evaluated on
`gLikeInput` (a fresh like by user 1 on post 7, the removal of user 2's
existing like, and user 1 unfollowing user 2), with the concrete counter
values. -/
theorem engagement_counters_transactional_witness :
    create_post_like gLikeInput 7 1 =
      .ok (likePostEffect gLikeInput 1 7,
        { user_id := 1, content_id := 7, content_type := "post" })
    ∧ (likePostEffect gLikeInput 1 7).like_count 7 = some 2
    ∧ remove_post_like gLikeInput 7 2 = .ok (unlikePostEffect gLikeInput 2 7)
    ∧ (unlikePostEffect gLikeInput 2 7).like_count 7 = some 0
    ∧ unfollow_user gLikeInput 1 2 = .ok (unfollowEffect gLikeInput 1 2)
    ∧ (unfollowEffect gLikeInput 1 2).following_count 1 = some 4
    ∧ (unfollowEffect gLikeInput 1 2).follower_count 2 = some 6 := by
  have h1 := engagement_counters_transactional.1 gLikeInput 1 7 rfl rfl rfl
  have h3 := engagement_counters_transactional.2.2.1 gLikeInput 2 7 1
    rfl rfl rfl rfl
  have h5 := engagement_counters_transactional.2.2.2.2.1 gLikeInput 1 2 5 7
    rfl rfl rfl rfl rfl
  exact ⟨h1.1, h1.2.2.trans (by decide), h3.1, h3.2.2.trans (by decide),
    h5.1, h5.2.2.1.trans (by decide), h5.2.2.2.trans (by decide)⟩

/-- The collection loop of `_get_potential_matches` computes the first
`limit` qualifying rows: starting from an accumulator shorter than the
limit, it returns the accumulator extended by the prefix of the
qualifying rows that fills it up to `limit`. -/
theorem collectMatches_spec (g : Graph) (uid : UserId) (fl : DatingFilter) :
    ∀ (rows acc : List CandidateRow), acc.length < fl.limit →
      collectMatches g uid fl rows acc
        = acc ++ (rows.filter (qualifies g uid fl)).take
            (fl.limit - acc.length) := by
  intro rows
  induction rows with
  | nil => intro acc _; simp [collectMatches]
  | cons r rest ih =>
    intro acc hacc
    cases hc1 : (fl.exclude_seen && seen_ids.contains r.user_id) with
    | true =>
        have hq : qualifies g uid fl r = false := by
          unfold qualifies
          rw [hc1]
          simp
        simp only [collectMatches, hc1, if_true]
        rw [ih acc hacc, List.filter_cons_of_neg (by simp [hq])]
    | false =>
    cases hc2 :
        (fl.exclude_matched && check_existing_match g uid r.user_id) with
    | true =>
        have hq : qualifies g uid fl r = false := by
          unfold qualifies
          rw [hc2]
          simp
        simp only [collectMatches, hc1, hc2, if_true, Bool.false_eq_true,
          if_false]
        rw [ih acc hacc, List.filter_cons_of_neg (by simp [hq])]
    | false =>
    by_cases hc3 : r.compatibility_score < fl.min_compatibility
    · have hq : qualifies g uid fl r = false := by
        unfold qualifies
        rw [decide_eq_true hc3]
        simp
      simp only [collectMatches, hc1, hc2, Bool.false_eq_true, if_false,
        if_pos hc3]
      rw [ih acc hacc, List.filter_cons_of_neg (by simp [hq])]
    · have hq : qualifies g uid fl r = true := by
        unfold qualifies
        rw [hc1, hc2, decide_eq_false hc3]
        simp
      have hfil : (r :: rest).filter (qualifies g uid fl)
          = r :: rest.filter (qualifies g uid fl) :=
        List.filter_cons_of_pos (by simp [hq])
      obtain ⟨k, hk⟩ : ∃ k, fl.limit - acc.length = k + 1 :=
        ⟨fl.limit - acc.length - 1, by omega⟩
      simp only [collectMatches, hc1, hc2, Bool.false_eq_true, if_false,
        if_neg hc3]
      rw [hfil, hk, List.take_succ_cons]
      by_cases hfull : fl.limit ≤ (acc ++ [r]).length
      · have hk0 : k = 0 := by
          rw [List.length_append, List.length_singleton] at hfull
          omega
        rw [if_pos hfull, hk0, List.take_zero]
      · have hlt : (acc ++ [r]).length < fl.limit := by omega
        rw [if_neg hfull, ih (acc ++ [r]) hlt]
        have hk2 : fl.limit - (acc ++ [r]).length = k := by
          rw [List.length_append, List.length_singleton]
          omega
        rw [hk2]
        simp

/-- Dropping after taking is taking after dropping. -/
theorem drop_of_take_eq {α : Type} (l : List α) (m n : Nat) :
    (l.take n).drop m = (l.drop m).take (n - m) := by
  by_cases h : m ≤ n
  · have h2 := List.take_drop m (n - m) l
    rw [Nat.add_sub_cancel' h] at h2
    exact h2.symm
  · push_neg at h
    rw [Nat.sub_eq_zero_of_le h.le, List.take_zero]
    exact List.drop_eq_nil_iff.mpr
      (le_trans (List.length_take_le n l) h.le)

/-- C5: given the rows the engine returns sorted by compatibility score
(`ORDER BY compatibility_score DESC`), `get_potential_matches` yields a
result that is still sorted in non-increasing score order, has at most
`filters.limit` entries, and skips exactly the first `filters.offset`
qualifying rows (it equals the qualifying rows with the first `offset`
dropped, truncated to `limit - offset`; the hypothesis `1 ≤ limit` is
guaranteed by the `DatingFilter` validation `limit ≥ 1`). -/
theorem potential_matches_ranked_paginated (g : Graph) (uid : UserId)
    (fl : DatingFilter) (rows : List CandidateRow)
    (hlim : 1 ≤ fl.limit)
    (hsorted : rows.Pairwise
      (fun x y => y.compatibility_score ≤ x.compatibility_score)) :
    List.Pairwise
        (fun x y => y.compatibility_score ≤ x.compatibility_score)
        (get_potential_matches g uid fl rows)
    ∧ (get_potential_matches g uid fl rows).length ≤ fl.limit
    ∧ get_potential_matches g uid fl rows
        = ((rows.filter (qualifies g uid fl)).drop fl.offset).take
            (fl.limit - fl.offset) := by
  have key : get_potential_matches g uid fl rows
      = ((rows.filter (qualifies g uid fl)).take fl.limit).drop fl.offset := by
    unfold get_potential_matches
    rw [collectMatches_spec g uid fl rows [] (by simpa using hlim)]
    simp
  refine ⟨?_, ?_, ?_⟩
  · rw [key]
    exact hsorted.sublist
      (((List.drop_sublist _ _).trans (List.take_sublist _ _)).trans
        (List.filter_sublist _))
  · rw [key, List.length_drop]
    exact le_trans (Nat.sub_le _ _) (List.length_take_le _ _)
  · rw [key, drop_of_take_eq]

/-- C5 witness: the concrete sorted rows over `gMatchesInput`
(user 3 excluded as an existing match, user 5 below the threshold,
page two of size two). -/
theorem potential_matches_ranked_paginated_witness :
    List.Pairwise
        (fun x y => y.compatibility_score ≤ x.compatibility_score)
        (get_potential_matches gMatchesInput 1 flMatches rowsMatches)
    ∧ (get_potential_matches gMatchesInput 1 flMatches rowsMatches).length
        ≤ flMatches.limit
    ∧ get_potential_matches gMatchesInput 1 flMatches rowsMatches
        = ((rowsMatches.filter (qualifies gMatchesInput 1 flMatches)).drop
            flMatches.offset).take (flMatches.limit - flMatches.offset) :=
  potential_matches_ranked_paginated gMatchesInput 1 flMatches rowsMatches
    (by decide) (by decide)

/-- C10: every `DatingProfile` that validation accepts satisfies the
claimed invariants - the birth date is between 18 and 100 years in the
past (in the 365.25-day years of `validate_age`), at most 5 photos, a
non-empty gender preference, and `max_age_preference` at least
`min_age_preference` - and any input violating one of these is rejected
at construction.  Every operation that returns a profile rebuilds it
through this same validation, so the invariants are preserved. -/
theorem dating_profile_validation (d : DatingProfileData) :
    (∀ p, mk_dating_profile d = .ok p →
      (18 : ℚ) ≤ ageYears p.birth_days_ago
      ∧ ageYears p.birth_days_ago ≤ 100
      ∧ p.photos.length ≤ 5
      ∧ p.gender_preference ≠ []
      ∧ p.min_age_preference ≤ p.max_age_preference)
    ∧ ((ageYears d.birth_days_ago < 18 ∨ 100 < ageYears d.birth_days_ago
        ∨ 5 < d.photos.length ∨ d.gender_preference = []
        ∨ d.max_age_preference < d.min_age_preference) →
      ∀ p, mk_dating_profile d ≠ .ok p) := by
  constructor
  · intro p hp
    unfold mk_dating_profile at hp
    split_ifs at hp with h1 h2 h3 h4 h5 h6 h7 h8 h9
    injection hp with hdp
    subst hdp
    exact ⟨le_of_not_lt h2, le_of_not_lt h3, Nat.le_of_not_lt h4, h9,
      le_of_not_lt h8⟩
  · intro hviol p hp
    unfold mk_dating_profile at hp
    split_ifs at hp with h1 h2 h3 h4 h5 h6 h7 h8 h9
    rcases hviol with h | h | h | h | h
    · exact h2 h
    · exact h3 h
    · exact h4 h
    · exact h9 h
    · exact h8 h

/-- C10 witness: the ordinary valid profile data `dProfileInput` passes
validation and satisfies every invariant. -/
theorem dating_profile_validation_witness :
    (18 : ℚ) ≤ ageYears dProfileInput.birth_days_ago
    ∧ ageYears dProfileInput.birth_days_ago ≤ 100
    ∧ dProfileInput.photos.length ≤ 5
    ∧ dProfileInput.gender_preference ≠ []
    ∧ dProfileInput.min_age_preference ≤ dProfileInput.max_age_preference :=
  (dating_profile_validation dProfileInput).1 dProfileInput (by
    unfold mk_dating_profile
    rw [if_neg (by decide), if_neg (by norm_num [ageYears, dProfileInput]),
      if_neg (by norm_num [ageYears, dProfileInput]), if_neg (by decide),
      if_neg (by decide), if_neg (by decide), if_neg (by decide),
      if_neg (by decide), if_neg (by decide)])
